import Mathlib

/-!
Shallow embedding of `src/MonitoringApiServer.py` (class `SystemMetricsMonitor`).

Modelling conventions:
* Python `str` values that the code computes on are `List Char` (`PyStr`);
  strings that are only carried around (timestamps, URLs, error causes) stay `String`.
* Python floats are exact rationals `ℚ`; `round(x, 2)` is exact round-half-to-even
  on rationals, `float(s)` is modelled on plain decimal literals (sign, digits,
  optional decimal point), the shape produced by `ping` and `nvidia-smi` output.
* Python `None` (a probe's "absent" marker) is `Option.none`.
* Each fallible effect (subprocess run, TCP connect, HTTP POST) is an explicit
  outcome value describing what the outside world did; the embedded function is
  the pure remainder of the Python code on that outcome.
-/

namespace MonitoringApiServer

/-- A Python `str`, as the list of its characters. -/
abbrev PyStr := List Char

/-- Splitter worker: scans left to right, cutting at each occurrence of `sep`.
Fuel is the length of the scanned list, so the fuel-exhausted branch is never
taken for the arguments `pySplit` passes. -/
def splitGo (sep : PyStr) : ℕ → PyStr → PyStr → List PyStr
  | _, [], acc => [acc.reverse]
  | 0, l, acc => [acc.reverse ++ l]
  | fuel + 1, c :: rest, acc =>
      if sep.isPrefixOf (c :: rest) then
        acc.reverse :: splitGo sep fuel ((c :: rest).drop sep.length) []
      else
        splitGo sep fuel rest (c :: acc)

/-- Python `s.split(sep)` for a nonempty separator. -/
def pySplit (s sep : PyStr) : List PyStr := splitGo sep s.length s []

/-- Python `sep in s` (substring containment, nonempty `sep`). -/
def pyContains (s sep : PyStr) : Bool := (pySplit s sep).length ≠ 1

/-- Python `s.strip()`: drop leading and trailing whitespace. -/
def pyStrip (s : PyStr) : PyStr :=
  ((s.dropWhile Char.isWhitespace).reverse.dropWhile Char.isWhitespace).reverse

/-- Python `s.lower()`. -/
def pyLower (s : PyStr) : PyStr := s.map Char.toLower

/-- Value of a digit string read in base 10. -/
def digitsToNat (cs : PyStr) : ℕ := cs.foldl (fun a c => 10 * a + (c.toNat - 48)) 0

/-- Unsigned part of `float(s)`: digits with an optional single decimal point,
at least one digit overall. -/
def parseUnsigned (cs : PyStr) : Option ℚ :=
  match pySplit cs ['.'] with
  | [intPart] =>
      if intPart ≠ [] ∧ intPart.all Char.isDigit then
        some (digitsToNat intPart : ℚ)
      else none
  | [intPart, fracPart] =>
      if (intPart ≠ [] ∨ fracPart ≠ []) ∧ intPart.all Char.isDigit ∧ fracPart.all Char.isDigit then
        some ((digitsToNat intPart : ℚ) + (digitsToNat fracPart : ℚ) / 10 ^ fracPart.length)
      else none
  | _ => none

/-- Python `float(s)` on plain decimal literals; `none` models `ValueError`. -/
def pyFloat (s : PyStr) : Option ℚ :=
  match s with
  | '-' :: rest => (parseUnsigned rest).map (fun q => -q)
  | '+' :: rest => parseUnsigned rest
  | cs => parseUnsigned cs

/-- Round half to even (Python's `round` tie-breaking rule) to an integer. -/
def roundHalfEven (q : ℚ) : ℤ :=
  if Int.fract q < 1 / 2 then ⌊q⌋
  else if 1 / 2 < Int.fract q then ⌊q⌋ + 1
  else if Even ⌊q⌋ then ⌊q⌋ else ⌊q⌋ + 1

/-- Python `round(q, 2)` on exact rationals. -/
def pyRound2 (q : ℚ) : ℚ := (roundHalfEven (q * 100) : ℚ) / 100

/-- What `subprocess.run(..., capture_output=True, text=True, timeout=t)` did:
the launch raised (`FileNotFoundError` etc.), the timeout expired
(`subprocess.TimeoutExpired`), or the process completed with an exit status
and captured stdout. -/
inductive SubprocessOutcome where
  | launchFailure
  | timeout
  | completed (returncode : ℤ) (stdout : PyStr)
deriving DecidableEq

/-- What `socket.create_connection((addr, port), timeout)` did: returned a
socket, or raised an `OSError` (connection refused, unreachable, timed out). -/
inductive ConnResult where
  | success
  | failure (oserror : String)
deriving DecidableEq

/-- `psutil.virtual_memory()`: byte counts and the percent figure reported by
the OS. -/
structure MemInfo where
  total : ℚ
  used : ℚ
  available : ℚ
  percent : ℚ
deriving DecidableEq

/-- The dict returned by `get_ram_usage` (lines 52-60). -/
structure RamRecord where
  total_gb : ℚ
  used_gb : ℚ
  available_gb : ℚ
  percent : ℚ
deriving DecidableEq

/-- `get_ram_usage` (lines 52-60): convert the three byte counts to gibibytes
rounded to 2 decimal places; pass `percent` through unchanged. -/
def get_ram_usage (mem : MemInfo) : RamRecord :=
  { total_gb := pyRound2 (mem.total / 1024 ^ 3)
    used_gb := pyRound2 (mem.used / 1024 ^ 3)
    available_gb := pyRound2 (mem.available / 1024 ^ 3)
    percent := mem.percent }

/-- `get_gpu_usage` (lines 26-50): on Windows or Linux, run
`nvidia-smi --query-gpu=utilization.gpu --format=csv,noheader,nounits` with a
2s timeout; return `float(result.stdout.strip())` when the exit status is 0.
Launch failure, timeout and a failing `float` all land in the `except` clause;
every non-returning path falls through to `return None`. -/
def get_gpu_usage (system : PyStr) (run : SubprocessOutcome) : Option ℚ :=
  if system = "Windows".data ∨ system = "Linux".data then
    match run with
    | .completed rc out => if rc = 0 then pyFloat (pyStrip out) else none
    | .launchFailure => none
    | .timeout => none
  else none

/-- The per-line test of the Windows branch of `get_ping` (line 81):
`'time=' in line.lower() or 'zeit=' in line.lower()`. -/
def windowsPingLineHit (line : PyStr) : Bool :=
  pyContains (pyLower line) "time=".data || pyContains (pyLower line) "zeit=".data

/-- The token extracted by the Windows branch (line 82):
`line.split('time=')[-1].split('ms')[0].strip()`. -/
def windowsPingExtract (line : PyStr) : PyStr :=
  pyStrip ((pySplit ((pySplit line "time=".data).getLastD []) "ms".data).headD [])

/-- The per-line test of the Unix branch of `get_ping` (line 87):
`'time=' in line`. -/
def unixPingLineHit (line : PyStr) : Bool := pyContains line "time=".data

/-- The token extracted by the Unix branch (line 88):
`line.split('time=')[-1].split(' ')[0].strip()`. -/
def unixPingExtract (line : PyStr) : PyStr :=
  pyStrip ((pySplit ((pySplit line "time=".data).getLastD []) [' ']).headD [])

/-- The line test `get_ping` applies on the given platform. -/
def pingLineHit (system : PyStr) (line : PyStr) : Bool :=
  if pyLower system = "windows".data then windowsPingLineHit line else unixPingLineHit line

/-- The token extraction `get_ping` applies on the given platform. -/
def pingExtract (system : PyStr) (line : PyStr) : PyStr :=
  if pyLower system = "windows".data then windowsPingExtract line else unixPingExtract line

/-- `get_ping` (lines 62-93): run the platform ping with a 5s timeout, walk
`result.stdout.split('\n')` and return `float` of the token extracted from the
first matching line. A raising `float`, a timeout and a launch failure are all
swallowed by the `except` clause; every non-returning path yields `None`. -/
def get_ping (system : PyStr) (run : SubprocessOutcome) : Option ℚ :=
  match run with
  | .completed _ out =>
      match (pySplit out ['\n']).find? (pingLineHit system) with
      | some line => pyFloat (pingExtract system line)
      | none => none
  | .launchFailure => none
  | .timeout => none

/-- `check_internet_connection` (lines 95-102): `True` when
`socket.create_connection(("8.8.8.8", 53), timeout=3)` returns, `False` when
it raises `OSError`. `net` is the host network: what connecting to a given
address and port with a given timeout does. -/
def check_internet_connection (net : String → ℕ → ℚ → ConnResult) : Bool :=
  match net "8.8.8.8" 53 3 with
  | .success => true
  | .failure _ => false

/-- The host-world inputs one call to `collect_metrics` consumes: the CPU and
memory readings (assumed to succeed, per the supported-host precondition), the
`platform.system()` string, the two subprocess outcomes, and the TCP-connect
behaviour of the network. -/
structure HostState where
  cpuPercent : ℚ
  mem : MemInfo
  system : PyStr
  gpuRun : SubprocessOutcome
  pingRun : SubprocessOutcome
  net : String → ℕ → ℚ → ConnResult

/-- `get_cpu_usage` (lines 22-24): `psutil.cpu_percent(interval=1)`. -/
def get_cpu_usage (h : HostState) : ℚ := h.cpuPercent

/-- The dict built by `collect_metrics` (lines 104-114): its six entries. -/
structure Snapshot where
  timestamp : String
  cpu_percent : ℚ
  gpu_percent : Option ℚ
  ram : RamRecord
  ping_ms : Option ℚ
  internet_connected : Bool
deriving DecidableEq

/-- `collect_metrics` (lines 104-114): one entry per probe, plus the captured
`datetime.now().isoformat()` timestamp (`now`). -/
def collect_metrics (h : HostState) (now : String) : Snapshot :=
  { timestamp := now
    cpu_percent := get_cpu_usage h
    gpu_percent := get_gpu_usage h.system h.gpuRun
    ram := get_ram_usage h.mem
    ping_ms := get_ping h.system h.pingRun
    internet_connected := check_internet_connection h.net }

/-- What `requests.post(url, json=..., timeout=10)` did: raised a
`ConnectionError`, raised a `Timeout`, or produced a response with an HTTP
status code. All three exception classes extend
`requests.exceptions.RequestException`. -/
inductive HttpOutcome where
  | connectionError (cause : String)
  | timeout (cause : String)
  | response (status : ℕ)
deriving DecidableEq

/-- `response.raise_for_status()`: raises `HTTPError` exactly for client
(4xx) and server (5xx) statuses. -/
def raisesForStatus (status : ℕ) : Bool := decide (400 ≤ status ∧ status < 600)

/-- `send_metrics` (lines 116-130): one POST; `raise_for_status`; `True` on
the non-raising path, `False` whenever a `RequestException` reaches the
`except` clause. -/
def send_metrics (o : HttpOutcome) : Bool :=
  match o with
  | .response status => if raisesForStatus status then false else true
  | .connectionError _ => false
  | .timeout _ => false

/-- The failure line `send_metrics` prints (line 129), built from the caught
exception; `none` on the success path. For a 4xx/5xx response the exception
text is the `HTTPError` message carrying the status code. -/
def send_failure_log (o : HttpOutcome) : Option String :=
  match o with
  | .connectionError c => some ("Failed to send metrics: " ++ c)
  | .timeout c => some ("Failed to send metrics: " ++ c)
  | .response status =>
      if raisesForStatus status then
        some ("Failed to send metrics: HTTP error " ++ toString status)
      else none

/-- The constructor arguments (lines 11-20): endpoint URL and sampling
interval in seconds. -/
structure MonitorConfig where
  api_url : String
  interval : ℚ

/-- The host-world inputs one iteration of `run`'s while-loop consumes. -/
structure TickInput where
  host : HostState
  now : String
  http : HttpOutcome

/-- The duration handed to `time.sleep` at the end of an iteration of `run`
(line 159): the fixed configured interval. The elapsed time of the tick is in
scope for the caller but the code does not consult it. -/
def run_sleep_duration (cfg : MonitorConfig) (_elapsed : ℚ) : ℚ := cfg.interval

/-- Start time of the n-th iteration of `run`, given the assemble-plus-send
duration of each iteration: each tick takes `elapsed n` and then sleeps. -/
def tick_start (cfg : MonitorConfig) (elapsed : ℕ → ℚ) : ℕ → ℚ
  | 0 => 0
  | n + 1 => tick_start cfg elapsed n + elapsed n + run_sleep_duration cfg (elapsed n)

/-- Observable effect of one iteration of `run`'s while-loop (lines 140-159):
`posted` is the list of bodies handed to `requests.post` during the iteration
(the code calls `send_metrics` exactly once, on the metrics just collected);
`sendOk` is the `send_metrics` return value, which line 156 discards;
`sleep` is the duration handed to `time.sleep`; `retained` is the data the
loop keeps for later iterations — the body's only local, `metrics`, is
rebound on every iteration, so nothing survives. -/
structure TickEffect where
  posted : List Snapshot
  sendOk : Bool
  sleep : ℚ
  retained : Option Snapshot
deriving DecidableEq

/-- One iteration of `run`'s while-loop (lines 140-159). -/
def run_tick (cfg : MonitorConfig) (inp : TickInput) : TickEffect :=
  let metrics := collect_metrics inp.host inp.now
  { posted := [metrics]
    sendOk := send_metrics inp.http
    sleep := cfg.interval
    retained := none }

/-- The JSON values `requests.post(json=...)` serializes. -/
inductive Json where
  | jstr (s : String)
  | jnum (q : ℚ)
  | jbool (b : Bool)
  | jnull
  | jobj (fields : List (String × Json))

/-- Serialization of the `ram` sub-dict (lines 55-60). -/
def ramToJson (r : RamRecord) : Json :=
  .jobj [("total_gb", .jnum r.total_gb), ("used_gb", .jnum r.used_gb),
         ("available_gb", .jnum r.available_gb), ("percent", .jnum r.percent)]

/-- `float-or-None` fields serialize to a number or JSON `null`. -/
def optToJson : Option ℚ → Json
  | some q => .jnum q
  | none => .jnull

/-- The JSON object for the metrics dict of `collect_metrics`, in the dict's
insertion order (lines 106-113). -/
def snapshotToJson (s : Snapshot) : Json :=
  .jobj [("timestamp", .jstr s.timestamp),
         ("cpu_percent", .jnum s.cpu_percent),
         ("gpu_percent", optToJson s.gpu_percent),
         ("ram", ramToJson s.ram),
         ("ping_ms", optToJson s.ping_ms),
         ("internet_connected", .jbool s.internet_connected)]

/-- The body `run` hands to `requests.post` on a tick: `send_metrics` posts
the `collect_metrics` dict unchanged (line 121, `json=metrics`); the
configuration contributes only the target URL, nothing to the body. -/
def posted_payload (_cfg : MonitorConfig) (h : HostState) (now : String) : Json :=
  snapshotToJson (collect_metrics h now)

/-- Top-level keys of a JSON object. -/
def jsonKeys : Json → List String
  | .jobj fields => fields.map Prod.fst
  | _ => []

/-- A 16 GiB host memory reading, half used. -/
def sampleMem : MemInfo :=
  { total := 16 * 2 ^ 30, used := 8 * 2 ^ 30, available := 8 * 2 ^ 30, percent := 50 }

/-- A Linux host on which every probe beyond CPU and memory is unavailable. -/
def sampleHost : HostState :=
  { cpuPercent := 42
    mem := sampleMem
    system := "Linux".data
    gpuRun := SubprocessOutcome.launchFailure
    pingRun := SubprocessOutcome.launchFailure
    net := fun _ _ _ => ConnResult.failure "Network is unreachable" }

/-- The configuration of the `__main__` block (lines 165-171). -/
def sampleCfg : MonitorConfig :=
  { api_url := "https://your-website.com/api/metrics", interval := 5 }

/-- A tick whose send times out. -/
def sampleTickFail : TickInput :=
  { host := sampleHost, now := "2026-02-03T10:00:00", http := HttpOutcome.timeout "read timed out" }

/-- The same tick with a successful send. -/
def sampleTickOk : TickInput :=
  { host := sampleHost, now := "2026-02-03T10:00:00", http := HttpOutcome.response 200 }

/-! ## Helper lemmas -/

theorem roundHalfEven_le_floor_add_one (q : ℚ) : roundHalfEven q ≤ ⌊q⌋ + 1 := by
  unfold roundHalfEven
  split_ifs <;> omega

theorem floor_le_roundHalfEven (q : ℚ) : ⌊q⌋ ≤ roundHalfEven q := by
  unfold roundHalfEven
  split_ifs <;> omega

theorem roundHalfEven_of_fract_lt {q : ℚ} (h : Int.fract q < 1 / 2) :
    roundHalfEven q = ⌊q⌋ := by
  unfold roundHalfEven
  rw [if_pos h]

theorem roundHalfEven_of_lt_fract {q : ℚ} (h : 1 / 2 < Int.fract q) :
    roundHalfEven q = ⌊q⌋ + 1 := by
  unfold roundHalfEven
  rw [if_neg (by linarith), if_pos h]

theorem roundHalfEven_mono {a b : ℚ} (hab : a ≤ b) :
    roundHalfEven a ≤ roundHalfEven b := by
  rcases eq_or_lt_of_le hab with rfl | hlt
  · exact le_rfl
  rcases lt_or_le ⌊a⌋ ⌊b⌋ with hf | hf
  · have h1 := roundHalfEven_le_floor_add_one a
    have h2 := floor_le_roundHalfEven b
    omega
  · have hfe : ⌊a⌋ = ⌊b⌋ := le_antisymm (Int.floor_mono hab) hf
    have hcast : ((⌊a⌋ : ℤ) : ℚ) = ((⌊b⌋ : ℤ) : ℚ) := by rw [hfe]
    have hfr : Int.fract a < Int.fract b := by
      simp only [Int.fract]
      rw [hcast]
      linarith
    rcases lt_or_le (Int.fract a) (1 / 2 : ℚ) with hfa | hfa
    · have h1 := roundHalfEven_of_fract_lt hfa
      have h2 := floor_le_roundHalfEven b
      omega
    · have hfb : 1 / 2 < Int.fract b := lt_of_le_of_lt hfa hfr
      have h1 := roundHalfEven_le_floor_add_one a
      have h2 := roundHalfEven_of_lt_fract hfb
      omega

theorem pyRound2_mono {a b : ℚ} (hab : a ≤ b) : pyRound2 a ≤ pyRound2 b := by
  unfold pyRound2
  have h : roundHalfEven (a * 100) ≤ roundHalfEven (b * 100) :=
    roundHalfEven_mono (by linarith)
  have h' : ((roundHalfEven (a * 100) : ℤ) : ℚ) ≤ ((roundHalfEven (b * 100) : ℤ) : ℚ) := by
    exact_mod_cast h
  linarith

/-! ## Claim theorems -/

/-- C1: when the CPU and memory probes succeed, `collect_metrics` always
assembles the full six-field snapshot; with the GPU tool and the ping tool
failing to launch and the TCP connect raising, the snapshot still carries the
timestamp, the CPU reading and the memory record, while `gpu_percent` and
`ping_ms` degrade to the absent marker and `internet_connected` to `false`. -/
theorem claim_C1_snapshot_survives_probe_failures (h : HostState) (t : String) (e : String)
    (hgpu : h.gpuRun = SubprocessOutcome.launchFailure)
    (hping : h.pingRun = SubprocessOutcome.launchFailure)
    (hnet : h.net "8.8.8.8" 53 3 = ConnResult.failure e) :
    collect_metrics h t =
      { timestamp := t
        cpu_percent := h.cpuPercent
        gpu_percent := none
        ram := get_ram_usage h.mem
        ping_ms := none
        internet_connected := false } := by
  unfold collect_metrics get_cpu_usage get_gpu_usage get_ping check_internet_connection
  rw [hgpu, hping, hnet]
  simp

/-- C1 witness: the contract at a concrete host with all non-CPU, non-memory
probes unavailable. -/
theorem claim_C1_witness :
    collect_metrics sampleHost "2026-02-03T10:00:00" =
      { timestamp := "2026-02-03T10:00:00"
        cpu_percent := 42
        gpu_percent := none
        ram := get_ram_usage sampleMem
        ping_ms := none
        internet_connected := false } :=
  claim_C1_snapshot_survives_probe_failures sampleHost "2026-02-03T10:00:00"
    "Network is unreachable" rfl rfl rfl

/-- C2 counterexample: at interval 5 with a tick that took 2 seconds, the
loop's sleep is 5 seconds, not `max 0 (5 - 2) = 3`. -/
theorem claim_C2_counterexample :
    run_sleep_duration sampleCfg 2 ≠ max 0 (5 - 2 : ℚ) := by
  unfold run_sleep_duration sampleCfg
  norm_num

/-- C2 amended: the sleep performed between ticks is the fixed configured
interval, independent of the tick's elapsed assemble-and-send time; the next
tick therefore starts `elapsed + interval` after the previous one, so with
interval 5 the loop sleeps a full 5 seconds regardless of tick duration. -/
theorem claim_C2_fixed_sleep (cfg : MonitorConfig) (elapsed : ℕ → ℚ) (n : ℕ) :
    run_sleep_duration cfg (elapsed n) = cfg.interval ∧
    tick_start cfg elapsed (n + 1) = tick_start cfg elapsed n + (elapsed n + cfg.interval) := by
  refine ⟨rfl, ?_⟩
  show tick_start cfg elapsed n + elapsed n + run_sleep_duration cfg (elapsed n) = _
  rw [run_sleep_duration, add_assoc]

/-- C3 counterexample: a 304 response is reported as success by
`send_metrics`, though 304 is not a 2xx status. -/
theorem claim_C3_counterexample :
    send_metrics (HttpOutcome.response 304) = true ∧ ¬(200 ≤ 304 ∧ 304 < 300) := by
  refine ⟨rfl, by decide⟩

/-- C3 amended: `send_metrics` reports success iff the sink returned a status
outside 400-599 (`raise_for_status` raises only for 4xx/5xx, so 1xx/3xx final
statuses also count as success); any 4xx/5xx status, connection failure or
timeout is reported as failure with a human-readable cause, and every outcome
is mapped to a boolean — nothing raises past the boundary. -/
theorem claim_C3_send_success_iff (o : HttpOutcome) :
    (send_metrics o = true ↔
      ∃ s, o = HttpOutcome.response s ∧ ¬(400 ≤ s ∧ s < 600)) ∧
    (send_metrics o = false → (send_failure_log o).isSome = true) := by
  constructor
  · constructor
    · intro hsend
      cases o with
      | response s =>
          refine ⟨s, rfl, ?_⟩
          intro hc
          simp [send_metrics, raisesForStatus, hc] at hsend
      | connectionError c => simp [send_metrics] at hsend
      | timeout c => simp [send_metrics] at hsend
    · rintro ⟨s, rfl, hs⟩
      simp [send_metrics, raisesForStatus, hs]
  · intro hsend
    cases o with
    | response s =>
        simp only [send_metrics] at hsend
        by_cases hr : raisesForStatus s = true
        · simp [send_failure_log, hr]
        · simp [hr] at hsend
    | connectionError c => simp [send_failure_log]
    | timeout c => simp [send_failure_log]

/-- C3 witness: a timed-out POST is reported as failure and its logged line
exists. -/
theorem claim_C3_witness :
    (send_failure_log (HttpOutcome.timeout "read timed out")).isSome = true :=
  (claim_C3_send_success_iff (HttpOutcome.timeout "read timed out")).2 rfl

/-- C4: one iteration of `run` posts its snapshot exactly once, retains
nothing for later iterations, and sleeps the configured interval; two ticks
with the same host state and timestamp but different send outcomes (success
or any failure) post the same thing, sleep the same and retain the same —
the loop proceeds unchanged after a failed send. -/
theorem claim_C4_no_retry (cfg : MonitorConfig) (inp inp' : TickInput)
    (hh : inp.host = inp'.host) (ht : inp.now = inp'.now) :
    (run_tick cfg inp).posted = [collect_metrics inp.host inp.now] ∧
    (run_tick cfg inp).retained = none ∧
    (run_tick cfg inp).sleep = cfg.interval ∧
    (run_tick cfg inp).posted = (run_tick cfg inp').posted ∧
    (run_tick cfg inp).sleep = (run_tick cfg inp').sleep ∧
    (run_tick cfg inp).retained = (run_tick cfg inp').retained := by
  refine ⟨rfl, rfl, rfl, ?_, rfl, rfl⟩
  show [collect_metrics inp.host inp.now] = [collect_metrics inp'.host inp'.now]
  rw [hh, ht]

/-- C4 witness: a failing tick and a succeeding tick at the same host state
produce identical posts, retention and sleep. -/
theorem claim_C4_witness :
    (run_tick sampleCfg sampleTickFail).posted = (run_tick sampleCfg sampleTickOk).posted ∧
    (run_tick sampleCfg sampleTickFail).retained = none ∧
    (run_tick sampleCfg sampleTickFail).sleep = sampleCfg.interval :=
  ⟨(claim_C4_no_retry sampleCfg sampleTickFail sampleTickOk rfl rfl).2.2.2.1,
   (claim_C4_no_retry sampleCfg sampleTickFail sampleTickOk rfl rfl).2.1,
   (claim_C4_no_retry sampleCfg sampleTickFail sampleTickOk rfl rfl).2.2.1⟩

/-- C5: `get_ping` yields the absent marker on launch failure and on timeout;
it yields the absent marker when no line of the output passes the platform's
latency-token test, and when the token of the first matching line does not
parse as a float; a value is returned only from a parsed token of a matching
line; and on the Unix parse path the well-formed line
`time=23.4 ms` yields 23.4. -/
theorem claim_C5_ping (system : PyStr) (run : SubprocessOutcome) :
    get_ping system SubprocessOutcome.launchFailure = none ∧
    get_ping system SubprocessOutcome.timeout = none ∧
    (∀ (rc : ℤ) (out : PyStr), (∀ line ∈ pySplit out ['\n'], pingLineHit system line = false) →
      get_ping system (SubprocessOutcome.completed rc out) = none) ∧
    (∀ (rc : ℤ) (out line : PyStr),
      (pySplit out ['\n']).find? (pingLineHit system) = some line →
      pyFloat (pingExtract system line) = none →
      get_ping system (SubprocessOutcome.completed rc out) = none) ∧
    (∀ v : ℚ, get_ping system run = some v →
      ∃ (rc : ℤ) (out line : PyStr), run = SubprocessOutcome.completed rc out ∧
        line ∈ pySplit out ['\n'] ∧ pingLineHit system line = true ∧
        pyFloat (pingExtract system line) = some v) ∧
    get_ping "Linux".data
      (SubprocessOutcome.completed 0
        "64 bytes from 8.8.8.8: icmp_seq=1 ttl=118 time=23.4 ms".data) = some (117 / 5) := by
  refine ⟨rfl, rfl, ?_, ?_, ?_, ?_⟩
  · intro rc out hnone
    have hfind : (pySplit out ['\n']).find? (pingLineHit system) = none :=
      List.find?_eq_none.mpr (fun line hline => by simp [hnone line hline])
    simp only [get_ping, hfind]
  · intro rc out line hfind hfloat
    simp only [get_ping, hfind]
    exact hfloat
  · intro v hv
    cases run with
    | launchFailure => simp [get_ping] at hv
    | timeout => simp [get_ping] at hv
    | completed rc out =>
        simp only [get_ping] at hv
        cases hfind : (pySplit out ['\n']).find? (pingLineHit system) with
        | none => rw [hfind] at hv; exact absurd hv (by simp)
        | some line =>
            rw [hfind] at hv
            exact ⟨rc, out, line, rfl, List.mem_of_find?_eq_some hfind,
              List.find?_some hfind, hv⟩
  · have hred : get_ping "Linux".data
        (SubprocessOutcome.completed 0
          "64 bytes from 8.8.8.8: icmp_seq=1 ttl=118 time=23.4 ms".data) =
        some ((digitsToNat ['2', '3'] : ℚ) + (digitsToNat ['4'] : ℚ) / 10 ^ (1 : ℕ)) := rfl
    have h23 : digitsToNat ['2', '3'] = 23 := by decide
    have h4 : digitsToNat ['4'] = 4 := by decide
    rw [hred, h23, h4]
    norm_num

/-- C5 witness: timeout and token-free output both yield the absent marker on
a Linux host. -/
theorem claim_C5_witness :
    get_ping "Linux".data SubprocessOutcome.timeout = none ∧
    get_ping "Linux".data (SubprocessOutcome.completed 2 "ping: unknown host".data) = none :=
  ⟨(claim_C5_ping "Linux".data SubprocessOutcome.timeout).2.1,
   (claim_C5_ping "Linux".data SubprocessOutcome.timeout).2.2.1 2 "ping: unknown host".data
     (by decide)⟩

/-- C6: `get_gpu_usage` yields the absent marker on launch failure (tool
absent), on timeout, on a non-zero exit status, and on unparseable output; a
real value is returned exactly when the platform is Windows or Linux, the
tool exits with status 0 and its stripped stdout parses as a float. -/
theorem claim_C6_gpu_absent_on_failure (system : PyStr) (run : SubprocessOutcome) :
    get_gpu_usage system SubprocessOutcome.launchFailure = none ∧
    get_gpu_usage system SubprocessOutcome.timeout = none ∧
    (∀ (rc : ℤ) (out : PyStr), rc ≠ 0 →
      get_gpu_usage system (SubprocessOutcome.completed rc out) = none) ∧
    (∀ out : PyStr, pyFloat (pyStrip out) = none →
      get_gpu_usage system (SubprocessOutcome.completed 0 out) = none) ∧
    (∀ v : ℚ, get_gpu_usage system run = some v ↔
      ∃ out : PyStr, run = SubprocessOutcome.completed 0 out ∧
        (system = "Windows".data ∨ system = "Linux".data) ∧
        pyFloat (pyStrip out) = some v) := by
  refine ⟨?_, ?_, ?_, ?_, ?_⟩
  · unfold get_gpu_usage; split_ifs <;> rfl
  · unfold get_gpu_usage; split_ifs <;> rfl
  · intro rc out hrc
    unfold get_gpu_usage
    split_ifs with hsys
    · simp [hrc]
    · rfl
  · intro out hfloat
    unfold get_gpu_usage
    split_ifs with hsys
    · simp [hfloat]
    · rfl
  · intro v
    constructor
    · intro hv
      unfold get_gpu_usage at hv
      split_ifs at hv with hsys
      · cases run with
        | launchFailure => exact absurd hv (by simp)
        | timeout => exact absurd hv (by simp)
        | completed rc out =>
            by_cases hrc : rc = 0
            · subst hrc
              simp only [if_pos rfl] at hv
              exact ⟨out, rfl, hsys, hv⟩
            · simp [hrc] at hv
    · rintro ⟨out, rfl, hsys, hfloat⟩
      unfold get_gpu_usage
      rw [if_pos hsys]
      simpa using hfloat

/-- C6 witness: a non-zero exit and an `N/A` output both yield the absent
marker on a Linux host. -/
theorem claim_C6_witness :
    get_gpu_usage "Linux".data (SubprocessOutcome.completed 1 [] ) = none ∧
    get_gpu_usage "Linux".data (SubprocessOutcome.completed 0 "N/A".data) = none :=
  ⟨(claim_C6_gpu_absent_on_failure "Linux".data SubprocessOutcome.launchFailure).2.2.1
      1 [] (by decide),
   (claim_C6_gpu_absent_on_failure "Linux".data SubprocessOutcome.launchFailure).2.2.2.1
      "N/A".data rfl⟩

/-- C7: `check_internet_connection` is `true` exactly when the TCP connection
to 8.8.8.8 port 53 with the 3-second timeout succeeds; every `OSError` from
the connect attempt yields `false` — the check is a total boolean, it never
propagates the error. -/
theorem claim_C7_connectivity (net : String → ℕ → ℚ → ConnResult) :
    (check_internet_connection net = true ↔ net "8.8.8.8" 53 3 = ConnResult.success) ∧
    (∀ e : String, net "8.8.8.8" 53 3 = ConnResult.failure e →
      check_internet_connection net = false) := by
  constructor
  · constructor
    · intro hc
      unfold check_internet_connection at hc
      cases hn : net "8.8.8.8" 53 3 with
      | success => rfl
      | failure e => rw [hn] at hc; exact absurd hc (by simp)
    · intro hn
      unfold check_internet_connection
      rw [hn]
  · intro e hn
    unfold check_internet_connection
    rw [hn]

/-- C7 witness: a network on which every connect attempt raises yields
`false`. -/
theorem claim_C7_witness :
    check_internet_connection (fun _ _ _ => ConnResult.failure "Network is unreachable") =
      false :=
  (claim_C7_connectivity (fun _ _ _ => ConnResult.failure "Network is unreachable")).2
    "Network is unreachable" rfl

/-- C8: with OS readings satisfying `0 ≤ used ≤ total` and
`0 ≤ percent ≤ 100`, the memory record satisfies `used_gb ≤ total_gb` and
`0 ≤ percent ≤ 100`, and its three gibibyte fields are exactly the byte
counts divided by 1024³ and rounded to 2 decimal places. -/
theorem claim_C8_ram_record (mem : MemInfo) (h0 : 0 ≤ mem.used) (h1 : mem.used ≤ mem.total)
    (h2 : 0 ≤ mem.percent) (h3 : mem.percent ≤ 100) :
    (get_ram_usage mem).used_gb ≤ (get_ram_usage mem).total_gb ∧
    0 ≤ (get_ram_usage mem).percent ∧ (get_ram_usage mem).percent ≤ 100 ∧
    (get_ram_usage mem).total_gb = pyRound2 (mem.total / 1024 ^ 3) ∧
    (get_ram_usage mem).used_gb = pyRound2 (mem.used / 1024 ^ 3) ∧
    (get_ram_usage mem).available_gb = pyRound2 (mem.available / 1024 ^ 3) := by
  refine ⟨?_, h2, h3, rfl, rfl, rfl⟩
  exact pyRound2_mono ((div_le_div_iff_of_pos_right (show (0 : ℚ) < 1024 ^ 3 by norm_num)).mpr h1)

/-- C8 witness: the record invariants at a 16 GiB host with 8 GiB used. -/
theorem claim_C8_witness :
    ((0 : ℚ) ≤ sampleMem.used ∧ sampleMem.used ≤ sampleMem.total ∧
      (0 : ℚ) ≤ sampleMem.percent ∧ sampleMem.percent ≤ 100) ∧
    ((get_ram_usage sampleMem).used_gb ≤ (get_ram_usage sampleMem).total_gb ∧
      0 ≤ (get_ram_usage sampleMem).percent ∧ (get_ram_usage sampleMem).percent ≤ 100) :=
  ⟨⟨by norm_num [sampleMem], by norm_num [sampleMem], by norm_num [sampleMem],
    by norm_num [sampleMem]⟩,
   ⟨(claim_C8_ram_record sampleMem (by norm_num [sampleMem]) (by norm_num [sampleMem])
       (by norm_num [sampleMem]) (by norm_num [sampleMem])).1,
    (claim_C8_ram_record sampleMem (by norm_num [sampleMem]) (by norm_num [sampleMem])
       (by norm_num [sampleMem]) (by norm_num [sampleMem])).2.1,
    (claim_C8_ram_record sampleMem (by norm_num [sampleMem]) (by norm_num [sampleMem])
       (by norm_num [sampleMem]) (by norm_num [sampleMem])).2.2.1⟩⟩

/-- C9: `collect_metrics` is deterministic in everything but the captured
timestamp: two ticks against the same host state produce snapshots that agree
on every field except `timestamp`. -/
theorem claim_C9_deterministic (h : HostState) (t t' : String) :
    collect_metrics h t' = { collect_metrics h t with timestamp := t' } := rfl

/-- C10: the JSON payload handed to the POST has exactly the six keys
`timestamp`, `cpu_percent`, `gpu_percent`, `ram`, `ping_ms`,
`internet_connected`, in this order, and never a `client_name` key — for
every configuration and every host state. -/
theorem claim_C10_payload_keys (cfg : MonitorConfig) (h : HostState) (now : String) :
    jsonKeys (posted_payload cfg h now) =
      ["timestamp", "cpu_percent", "gpu_percent", "ram", "ping_ms", "internet_connected"] ∧
    (jsonKeys (posted_payload cfg h now)).contains "client_name" = false := by
  exact ⟨rfl, rfl⟩

end MonitoringApiServer
